import Mathlib

/-
Verification of the process-supervision core of dzieju/App-Python
(src/runner.py, class ProcessRunner) against its design specification.

The runner is embedded shallowly: the mutable fields of a `ProcessRunner`
instance become a `RunnerState` record, each public method becomes a pure
function from a state (plus an oracle describing the OS responses for that
call) to a result record holding the new state, the return value, and the
trace of OS calls issued.  A separate fine-grained model (`CInstr` machine)
captures the lock-level interleaving of `start` and `stop` for the
concurrency claims.
-/

namespace Runner

/-- Snapshot of an OS child-process handle, as `subprocess.Popen` exposes it
to `poll()`: `exitCode` is `none` while the child has not exited, and the
exit status once it has. -/
structure ProcHandle where
  pid : Nat
  exitCode : Option Int
deriving Repr, DecidableEq

/-- `Popen.poll()`: non-blocking; reports the exit status if the child has
exited, `none` otherwise. -/
def poll (p : ProcHandle) : Option Int := p.exitCode

/-- The mutable fields of a `ProcessRunner` instance
(src/runner.py, `__init__`, lines 13-24). -/
structure RunnerState where
  python_executable : String
  process : Option ProcHandle
  output_queue : List String
  reader_thread : Bool
  running : Bool
deriving Repr, DecidableEq

/-- `ProcessRunner.__init__`: no process, empty FIFO queue, no reader
thread, not running. -/
def initRunner (python_executable : String) : RunnerState :=
  { python_executable := python_executable
    process := none
    output_queue := []
    reader_thread := false
    running := false }

/-- `ProcessRunner.is_running` (lines 26-37): reads `_process` under the
lock, then polls the copied handle; true iff a handle exists and `poll`
reports no exit status yet. -/
def is_running (s : RunnerState) : Bool :=
  match s.process with
  | none => false
  | some p => (poll p).isNone

/-- The OS calls `stop` can issue, in the order the code issues them. -/
inductive OsCall
  | terminate
  | waitTimeout (seconds : Nat)
  | kill
  | wait
deriving Repr, DecidableEq

/-- OS oracle for one `stop` call: which of the OS calls made by the code
raise an OS-level error, and whether the child exits within the grace
period (so that `wait(timeout=5)` returns instead of raising
`TimeoutExpired`). -/
structure StopBehavior where
  terminateRaises : Bool
  gracefulWaitRaises : Bool
  exitsWithinGrace : Bool
  killRaises : Bool
  reapWaitRaises : Bool
deriving Repr, DecidableEq

/-- Result of one `stop` call: the post state, the OS calls issued in
order, whether an exception propagated out of `stop`, and whether the
child exit status was collected by a wait that completed. -/
structure StopResult where
  state : RunnerState
  calls : List OsCall
  raised : Bool
  reaped : Bool
deriving Repr, DecidableEq

/-- `ProcessRunner.stop` (lines 97-110).  Under the lock: if no handle,
return at once.  Otherwise `terminate()`, then `wait(timeout=5)`; a
`TimeoutExpired` is caught and answered with `kill()` then `wait()`; any
other OS-level error propagates, since only `TimeoutExpired` is caught.
The `finally` block always clears `_process` and `_running`, on every
path, before `stop` finishes. -/
def stop (beh : StopBehavior) (s : RunnerState) : StopResult :=
  match s.process with
  | none => { state := s, calls := [], raised := false, reaped := false }
  | some _ =>
    let cleared : RunnerState := { s with process := none, running := false }
    if beh.terminateRaises then
      { state := cleared, calls := [OsCall.terminate], raised := true, reaped := false }
    else if beh.gracefulWaitRaises then
      { state := cleared, calls := [OsCall.terminate, OsCall.waitTimeout 5],
        raised := true, reaped := false }
    else if beh.exitsWithinGrace then
      { state := cleared, calls := [OsCall.terminate, OsCall.waitTimeout 5],
        raised := false, reaped := true }
    else if beh.killRaises then
      { state := cleared,
        calls := [OsCall.terminate, OsCall.waitTimeout 5, OsCall.kill],
        raised := true, reaped := false }
    else if beh.reapWaitRaises then
      { state := cleared,
        calls := [OsCall.terminate, OsCall.waitTimeout 5, OsCall.kill, OsCall.wait],
        raised := true, reaped := false }
    else
      { state := cleared,
        calls := [OsCall.terminate, OsCall.waitTimeout 5, OsCall.kill, OsCall.wait],
        raised := false, reaped := true }

/-- One `Queue.get_nowait()` on the FIFO output queue: `none` models the
`queue.Empty` exception. -/
def getNowait : List String → Option (String × List String)
  | [] => none
  | l :: rest => some (l, rest)

/-- The `while True` loop of `get_output` (lines 119-124): pop with
`get_nowait` and append to `output_lines` until the queue is empty. -/
def drainLoop : List String → List String → List String × List String
  | [], acc => (acc, [])
  | l :: rest, acc => drainLoop rest (acc ++ [l])

/-- `ProcessRunner.get_output` (lines 112-125): drain the whole FIFO queue
into a list and return the chunks joined in arrival order. -/
def get_output (s : RunnerState) : String × RunnerState :=
  let r := drainLoop s.output_queue []
  (String.join r.1, { s with output_queue := r.2 })

/-- Filesystem and spawn oracle for one `start` call: whether
`Path(script_path).exists()` holds, the string form of the parent
directory of the script, whether `subprocess.Popen` succeeds, the message
of the exception when it raises, and the handle it returns when it
succeeds. -/
structure SpawnEnv where
  scriptExists : Bool
  scriptParent : String
  spawnOk : Bool
  spawnErrMsg : String
  newHandle : ProcHandle
deriving Repr, DecidableEq

/-- What a successful `Popen` call received (lines 67-74): the argument
vector, the working directory, and whether stderr was redirected into
stdout. -/
structure SpawnRecord where
  cmd : List String
  workingDir : String
  mergeStderrIntoStdout : Bool
deriving Repr, DecidableEq

/-- Result of one `start` call: the post state, the boolean return value,
the spawn performed (if any), and whether a background reader thread was
started. -/
structure StartResult where
  state : RunnerState
  ret : Bool
  spawned : Option SpawnRecord
  readerStarted : Bool
deriving Repr, DecidableEq

/-- Tokenizer loop behind `pySplit`: walk the characters, accumulating
the current token (reversed); whitespace ends the token, and empty
tokens are never emitted. -/
def splitWsAux : List Char → List Char → List String
  | [], [] => []
  | [], cur => [String.mk cur.reverse]
  | c :: rest, cur =>
    if c.isWhitespace then
      match cur with
      | [] => splitWsAux rest []
      | _ => String.mk cur.reverse :: splitWsAux rest []
    else splitWsAux rest (c :: cur)

/-- Python `str.split()` with no separator: split on runs of whitespace,
dropping empty tokens. -/
def pySplit (s : String) : List String := splitWsAux s.data []

/-- `ProcessRunner.start` (lines 39-80).  Returns `False` at once if
`is_running`; queues a diagnostic and returns `False` if the script does
not exist; otherwise computes the working directory (`cwd` when truthy,
else the parent of the script), builds
`[python_executable, script] + args.split()` (arguments appended only
when `args` is truthy, i.e. a non-empty string), and calls `Popen` with
stderr merged into stdout.  On success it stores the handle, sets
`_running`, starts the reader thread and returns `True`; if `Popen`
raises, the handle is not assigned, a diagnostic is queued and `False` is
returned. -/
def start (env : SpawnEnv) (s : RunnerState) (script_path : String)
    (cwd : Option String) (args : String) : StartResult :=
  if is_running s then
    { state := s, ret := false, spawned := none, readerStarted := false }
  else if env.scriptExists = false then
    { state := { s with output_queue :=
        s.output_queue ++ ["Error: Script not found: " ++ script_path ++ "\n"] }
      ret := false, spawned := none, readerStarted := false }
  else
    let working_dir : String :=
      match cwd with
      | some c => if c = "" then env.scriptParent else c
      | none => env.scriptParent
    let cmd : List String :=
      [s.python_executable, script_path] ++ (if args = "" then [] else pySplit args)
    if env.spawnOk then
      { state := { s with
          process := some env.newHandle
          running := true
          reader_thread := true }
        ret := true
        spawned := some { cmd := cmd
                          workingDir := working_dir
                          mergeStderrIntoStdout := true }
        readerStarted := true }
    else
      { state := { s with output_queue :=
          s.output_queue ++ ["Error starting script: " ++ env.spawnErrMsg ++ "\n"] }
        ret := false, spawned := none, readerStarted := false }

/-- Events on the output buffer: the reader thread pushing one chunk
(`self._output_queue.put(line)`, line 89) or the caller draining
(`get_output`). -/
inductive BufEv
  | push (chunk : String)
  | drain
deriving Repr, DecidableEq

/-- A run of the buffer: the current queue contents and the successive
results of the `get_output` calls made so far, in order. -/
structure DrainRun where
  queue : List String
  drained : List String
deriving Repr, DecidableEq

/-- One buffer event: a push appends at the FIFO tail; a drain runs
`get_output` on a state holding the queue and records its result. -/
def bufStep (r : DrainRun) : BufEv → DrainRun
  | BufEv.push c => { r with queue := r.queue ++ [c] }
  | BufEv.drain =>
    let s0 : RunnerState := { initRunner "python" with output_queue := r.queue }
    let g := get_output s0
    { queue := g.2.output_queue, drained := r.drained ++ [g.1] }

/-- Run a sequence of buffer events from an empty buffer. -/
def bufRun (evs : List BufEv) : DrainRun :=
  evs.foldl bufStep { queue := [], drained := [] }

/-- The chunks the reader pushed, in production order. -/
def pushes : List BufEv → List String
  | [] => []
  | BufEv.push c :: rest => c :: pushes rest
  | BufEv.drain :: rest => pushes rest

/-- Atomic actions of the lock-level model of `start` and `stop`.  Each
constructor is one field access, lock operation, or OS call of the Python
code; field reads and writes are individually atomic. -/
inductive CInstr
  | lockAcq
  | lockRel
  | readProc
  | branchIdle
  | checkScript
  | spawnChild
  | setRunning
  | retTrue
  | terminateChild
  | waitChild
  | clearState
deriving Repr, DecidableEq

/-- The atomic-action trace of `ProcessRunner.start` on its success path
(lines 50-77).  The `is_running` property (lines 33-37) acquires
`self._lock` only around the read of `self._process`; the running check,
the script check and the spawn all execute after the lock is released. -/
def startProg : List CInstr :=
  [CInstr.lockAcq, CInstr.readProc, CInstr.lockRel, CInstr.branchIdle,
   CInstr.checkScript, CInstr.spawnChild, CInstr.setRunning, CInstr.retTrue]

/-- The atomic-action trace of `ProcessRunner.stop` on the graceful path
(lines 99-110): the entire body runs inside `with self._lock`. -/
def stopProg : List CInstr :=
  [CInstr.lockAcq, CInstr.readProc, CInstr.terminateChild, CInstr.waitChild,
   CInstr.clearState, CInstr.lockRel]

/-- Number of lock acquisitions minus releases among the first `n` actions
of a program: positive iff the thread holds the lock when the action at
index `n` executes. -/
def lockDepthBefore (p : List CInstr) (n : Nat) : Int :=
  (p.take n).foldl
    (fun d i =>
      match i with
      | CInstr.lockAcq => d + 1
      | CInstr.lockRel => d - 1
      | _ => d) 0

/-- One thread of the interleaving machine: its program, program counter,
the local copy of `self._process` taken by `is_running`, and the value it
returned (if it finished). -/
structure ThreadSt where
  prog : List CInstr
  pc : Nat
  localProc : Option Nat
  result : Option Bool
deriving Repr, DecidableEq

/-- Shared state of two threads running against one `ProcessRunner`:
the owner of `self._lock` (if held), the `_process` and `_running`
fields, a fresh-pid counter, and the number of `Popen` calls made.  In
this scenario no spawned child exits, so a non-`none` local handle polls
as running. -/
structure ConcSt where
  lockOwner : Option Nat
  process : Option Nat
  running : Bool
  nextPid : Nat
  spawnCount : Nat
  thread0 : ThreadSt
  thread1 : ThreadSt
deriving Repr, DecidableEq

/-- Read the thread record of thread `t` (0 or 1). -/
def getThread (c : ConcSt) (t : Nat) : ThreadSt :=
  if t = 0 then c.thread0 else c.thread1

/-- Replace the thread record of thread `t`. -/
def setThread (c : ConcSt) (t : Nat) (th : ThreadSt) : ConcSt :=
  if t = 0 then { c with thread0 := th } else { c with thread1 := th }

/-- Execute the next action of thread `t`, if any.  `lockAcq` blocks (the
step is a no-op) while the lock is held; all other actions are enabled.
`branchIdle` is the `if self.is_running: return False` decision taken on
the local copy of the handle. -/
def execInstr (c : ConcSt) (t : Nat) : ConcSt :=
  let th := getThread c t
  match th.prog.get? th.pc with
  | none => c
  | some i =>
    match i with
    | CInstr.lockAcq =>
      match c.lockOwner with
      | none => setThread { c with lockOwner := some t } t { th with pc := th.pc + 1 }
      | some _ => c
    | CInstr.lockRel =>
      setThread { c with lockOwner := none } t { th with pc := th.pc + 1 }
    | CInstr.readProc =>
      setThread c t { th with localProc := c.process, pc := th.pc + 1 }
    | CInstr.branchIdle =>
      match th.localProc with
      | none => setThread c t { th with pc := th.pc + 1 }
      | some _ =>
        setThread c t { th with result := some false, pc := th.prog.length }
    | CInstr.checkScript => setThread c t { th with pc := th.pc + 1 }
    | CInstr.spawnChild =>
      setThread
        { c with
            process := some c.nextPid
            nextPid := c.nextPid + 1
            spawnCount := c.spawnCount + 1 }
        t { th with pc := th.pc + 1 }
    | CInstr.setRunning =>
      setThread { c with running := true } t { th with pc := th.pc + 1 }
    | CInstr.retTrue =>
      setThread c t { th with result := some true, pc := th.pc + 1 }
    | CInstr.terminateChild => setThread c t { th with pc := th.pc + 1 }
    | CInstr.waitChild => setThread c t { th with pc := th.pc + 1 }
    | CInstr.clearState =>
      setThread { c with process := none, running := false } t
        { th with pc := th.pc + 1 }

/-- Run the machine under a schedule: the list of thread ids that get to
execute their next action, in order. -/
def runSched (sched : List Nat) (c : ConcSt) : ConcSt :=
  sched.foldl execInstr c

/-- Two concurrent `start` calls on an idle runner. -/
def twoStartsInit : ConcSt :=
  { lockOwner := none
    process := none
    running := false
    nextPid := 1
    spawnCount := 0
    thread0 := { prog := startProg, pc := 0, localProc := none, result := none }
    thread1 := { prog := startProg, pc := 0, localProc := none, result := none } }

/-- A schedule in which each thread completes its `is_running` check
before either spawns: both observe an idle runner. -/
def racySched : List Nat :=
  [0, 0, 0, 0, 1, 1, 1, 1, 0, 0, 0, 0, 1, 1, 1, 1]

/-! ## Supporting lemmas -/

/-- Folding string append from any seed equals the seed followed by the
fold from the empty string. -/
theorem foldl_append_hom (xs : List String) (x : String) :
    List.foldl (fun r s => r ++ s) x xs =
      x ++ List.foldl (fun r s => r ++ s) "" xs := by
  induction xs generalizing x with
  | nil => simp
  | cons y ys ih =>
    simp only [List.foldl_cons]
    rw [ih (x ++ y), ih ("" ++ y), String.empty_append, String.append_assoc]

/-- `String.join` distributes over list append. -/
theorem join_append (a b : List String) :
    String.join (a ++ b) = String.join a ++ String.join b := by
  induction a with
  | nil => simp [String.join]
  | cons x xs ih =>
    simp only [String.join, List.cons_append, List.foldl_cons] at *
    rw [foldl_append_hom (xs ++ b) ("" ++ x), foldl_append_hom xs ("" ++ x), ih,
      String.append_assoc]
    simp [String.empty_append, String.append_assoc]

/-- `String.join` of a one-chunk list is that chunk. -/
theorem join_singleton (x : String) : String.join [x] = x := by
  simp [String.join]

/-- The drain loop returns the accumulator followed by the whole queue,
and leaves the queue empty. -/
theorem drainLoop_eq (q acc : List String) :
    drainLoop q acc = (acc ++ q, []) := by
  induction q generalizing acc with
  | nil => simp [drainLoop]
  | cons l rest ih => simp [drainLoop, ih]

/-- `get_output` returns the queued chunks joined in arrival order and
empties the queue. -/
theorem get_output_eq (s : RunnerState) :
    get_output s = (String.join s.output_queue, { s with output_queue := [] }) := by
  simp [get_output, drainLoop_eq]

/-- After `stop` on a state holding a handle, the state is the input with
the handle cleared and the running flag false, on every behavior path. -/
theorem stop_state_eq (beh : StopBehavior) (s : RunnerState) (p : ProcHandle)
    (h : s.process = some p) :
    (stop beh s).state = { s with process := none, running := false } := by
  simp only [stop, h]
  split_ifs <;> rfl

/-- `stop` on a state with no handle returns the state unchanged, makes
no OS call, raises nothing and reaps nothing. -/
theorem stop_noop_of_none (beh : StopBehavior) (s : RunnerState)
    (h : s.process = none) :
    stop beh s = { state := s, calls := [], raised := false, reaped := false } := by
  simp [stop, h]

/-- After `stop` on any state, the handle field is `none`. -/
theorem stop_state_process_none (beh : StopBehavior) (s : RunnerState) :
    (stop beh s).state.process = none ∨ (stop beh s).state = s ∧ s.process = none := by
  cases h : s.process with
  | none =>
    apply Or.inr
    apply And.intro
    · simp [stop, h]
    · first
      | exact h
      | rfl
  | some p => exact Or.inl (by rw [stop_state_eq beh s p h])

/-! ## Concrete instances used by witnesses and counterexamples -/

/-- A runner holding a live child handle (pid 7, not yet exited). -/
def sActive : RunnerState :=
  { initRunner "python" with process := some { pid := 7, exitCode := none } }

/-- OS behavior: the child exits within the grace period; no OS call
raises. -/
def behGraceful : StopBehavior :=
  { terminateRaises := false
    gracefulWaitRaises := false
    exitsWithinGrace := true
    killRaises := false
    reapWaitRaises := false }

/-- OS behavior: the child ignores graceful termination past the grace
period; no OS call raises. -/
def behStubborn : StopBehavior :=
  { terminateRaises := false
    gracefulWaitRaises := false
    exitsWithinGrace := false
    killRaises := false
    reapWaitRaises := false }

/-- OS behavior: `process.terminate()` raises an OS-level error. -/
def behTermError : StopBehavior :=
  { terminateRaises := true
    gracefulWaitRaises := false
    exitsWithinGrace := false
    killRaises := false
    reapWaitRaises := false }

/-! ## Claim theorems -/

/-- C1: a `stop` call while a child handle is present first requests
graceful termination, then waits up to the fixed 5-unit grace period; if
the grace period elapses without exit it force-kills the child and waits
again; on both paths `stop` returns normally only after the child has
been reaped by a completed wait, and no handle remains in the state. -/
theorem stop_escalates_and_reaps (s : RunnerState) (beh : StopBehavior)
    (hact : s.process.isSome = true)
    (ht : beh.terminateRaises = false) (hw : beh.gracefulWaitRaises = false)
    (hk : beh.killRaises = false) (hr : beh.reapWaitRaises = false) :
    (stop beh s).calls =
      (if beh.exitsWithinGrace then [OsCall.terminate, OsCall.waitTimeout 5]
        else [OsCall.terminate, OsCall.waitTimeout 5, OsCall.kill, OsCall.wait]) ∧
    (stop beh s).reaped = true ∧
    (stop beh s).raised = false ∧
    (stop beh s).state.process = none := by
  obtain ⟨p, hp⟩ := Option.isSome_iff_exists.mp hact
  cases hg : beh.exitsWithinGrace <;>
    simp [stop, hp, ht, hw, hk, hr, hg]

/-- Witness for C1 on the escalation path: a live handle and a child that
ignores graceful termination. -/
theorem stop_escalates_and_reaps_witness :
    (stop behStubborn sActive).calls =
      [OsCall.terminate, OsCall.waitTimeout 5, OsCall.kill, OsCall.wait] ∧
    (stop behStubborn sActive).reaped = true ∧
    (stop behStubborn sActive).raised = false ∧
    (stop behStubborn sActive).state.process = none := by
  have h := stop_escalates_and_reaps sActive behStubborn rfl rfl rfl rfl rfl
  simpa [behStubborn] using h

/-- C2, counterexample: when `process.terminate()` raises an OS-level
error, `stop` does not return normally — only `TimeoutExpired` is caught,
so the OS error propagates to the caller (though the `finally` block has
already cleared the state). -/
theorem stop_error_propagation_counterexample :
    (stop behTermError sActive).raised = true ∧
    ¬ (stop behTermError sActive).raised = false ∧
    (stop behTermError sActive).state.process = none ∧
    (stop behTermError sActive).state.running = false := by
  refine ⟨rfl, ?_, rfl, rfl⟩
  simp [stop, behTermError, sActive, initRunner]

/-- C2, amended: `stop` on an active child always clears the handle and
the running flag — on the graceful path, the forced path, and every
OS-error path — but when `terminate`, the graceful wait, `kill` or the
final reaping wait raises an OS-level error, that error propagates to the
caller instead of `stop` returning normally. -/
theorem stop_clears_state_even_on_os_error (s : RunnerState) (beh : StopBehavior)
    (hact : s.process.isSome = true) :
    (stop beh s).state.process = none ∧
    (stop beh s).state.running = false ∧
    (beh.terminateRaises = true → (stop beh s).raised = true) ∧
    (beh.terminateRaises = false → beh.gracefulWaitRaises = true →
      (stop beh s).raised = true) ∧
    (beh.terminateRaises = false → beh.gracefulWaitRaises = false →
      beh.exitsWithinGrace = false → beh.killRaises = true →
      (stop beh s).raised = true) ∧
    (beh.terminateRaises = false → beh.gracefulWaitRaises = false →
      beh.exitsWithinGrace = false → beh.killRaises = false →
      beh.reapWaitRaises = true → (stop beh s).raised = true) := by
  obtain ⟨p, hp⟩ := Option.isSome_iff_exists.mp hact
  refine ⟨?_, ?_, ?_, ?_, ?_, ?_⟩
  · rw [stop_state_eq beh s p hp]
  · rw [stop_state_eq beh s p hp]
  · intro h1
    simp [stop, hp, h1]
  · intro h1 h2
    simp [stop, hp, h1, h2]
  · intro h1 h2 h3 h4
    simp [stop, hp, h1, h2, h3, h4]
  · intro h1 h2 h3 h4 h5
    simp [stop, hp, h1, h2, h3, h4, h5]

/-- Witness for the amended C2: a live handle whose `terminate` raises;
state is cleared and the error propagates. -/
theorem stop_clears_state_even_on_os_error_witness :
    (stop behTermError sActive).state.process = none ∧
    (stop behTermError sActive).state.running = false ∧
    (stop behTermError sActive).raised = true := by
  have h := stop_clears_state_even_on_os_error sActive behTermError rfl
  exact ⟨h.1, h.2.1, h.2.2.1 rfl⟩

/-- C4: `is_running` is true exactly when a child handle exists and
`poll` reports no exit status yet; it is false on a freshly constructed
runner and false on the state any `stop` call leaves behind. -/
theorem is_running_characterization :
    (∀ s : RunnerState,
        is_running s = true ↔ ∃ p, s.process = some p ∧ poll p = none) ∧
    (∀ exe : String, is_running (initRunner exe) = false) ∧
    (∀ (beh : StopBehavior) (s : RunnerState),
        is_running (stop beh s).state = false) := by
  refine ⟨?_, ?_, ?_⟩
  · intro s
    cases h : s.process with
    | none => simp [is_running, h]
    | some p => simp [is_running, h, poll, Option.isNone_iff_eq_none]
  · intro exe
    rfl
  · intro beh s
    rcases stop_state_process_none beh s with h | ⟨h1, h2⟩
    · simp [is_running, h]
    · rw [h1]
      simp [is_running, h2]

/-- C9: `stop` on an idle runner (no child handle) is a no-op — the state
is unchanged, no OS call is made, nothing is raised — and since every
`stop` leaves the handle cleared, a second `stop` immediately after any
`stop` is always such a no-op (idempotence). -/
theorem stop_idle_noop (beh beh2 : StopBehavior) (s : RunnerState) :
    (s.process = none →
      stop beh s = { state := s, calls := [], raised := false, reaped := false }) ∧
    stop beh2 (stop beh s).state =
      { state := (stop beh s).state, calls := [], raised := false, reaped := false } := by
  constructor
  · intro h
    exact stop_noop_of_none beh s h
  · rcases stop_state_process_none beh s with h | ⟨h1, h2⟩
    · exact stop_noop_of_none beh2 _ h
    · refine stop_noop_of_none beh2 _ ?_
      rw [h1]
      exact h2

/-- Witness for C9: `stop` on the freshly constructed runner is a no-op,
and so is a repeated `stop`. -/
theorem stop_idle_noop_witness :
    stop behGraceful (initRunner "python") =
      { state := initRunner "python", calls := [], raised := false, reaped := false } ∧
    stop behStubborn (stop behGraceful (initRunner "python")).state =
      { state := (stop behGraceful (initRunner "python")).state
        calls := []
        raised := false
        reaped := false } := by
  have h := stop_idle_noop behGraceful behStubborn (initRunner "python")
  exact ⟨h.1 rfl, h.2⟩

/-- `String.join` of no chunks is the empty string. -/
theorem join_nil : String.join ([] : List String) = "" := rfl

/-- `String.join` splits off its head chunk. -/
theorem join_cons (c : String) (l : List String) :
    String.join (c :: l) = c ++ String.join l := by
  have h : c :: l = [c] ++ l := rfl
  rw [h, join_append, join_singleton]

/-- `is_running` reads only the handle field, so updating the output
queue does not change it. -/
theorem is_running_ignores_queue (s : RunnerState) (q : List String) :
    is_running { s with output_queue := q } = is_running s := rfl

/-- Invariant of the buffer machine: the chunks drained so far followed
by the chunks still queued are exactly the chunks pushed so far, joined
in order. -/
theorem bufStep_foldl_invariant (evs : List BufEv) (r : DrainRun) :
    String.join (evs.foldl bufStep r).drained ++
        String.join (evs.foldl bufStep r).queue =
      String.join r.drained ++ (String.join r.queue ++ String.join (pushes evs)) := by
  induction evs generalizing r with
  | nil => simp [pushes, String.join, String.append_empty]
  | cons e rest ih =>
    cases e with
    | push c =>
      rw [List.foldl_cons, ih]
      simp [bufStep, pushes, join_append, join_singleton, join_cons, join_nil,
        String.append_assoc, String.empty_append]
    | drain =>
      rw [List.foldl_cons, ih]
      simp [bufStep, get_output_eq, pushes, join_append, join_singleton,
        String.append_assoc, String.join]

/-- Spawn environment: the script path does not exist. -/
def envMissing : SpawnEnv :=
  { scriptExists := false
    scriptParent := "scripts"
    spawnOk := true
    spawnErrMsg := ""
    newHandle := { pid := 8, exitCode := none } }

/-- Spawn environment: the script exists and `Popen` succeeds. -/
def envOk : SpawnEnv :=
  { scriptExists := true
    scriptParent := "scripts"
    spawnOk := true
    spawnErrMsg := ""
    newHandle := { pid := 9, exitCode := none } }

/-- Spawn environment: the script exists but the OS refuses to spawn. -/
def envSpawnFail : SpawnEnv :=
  { scriptExists := true
    scriptParent := "scripts"
    spawnOk := false
    spawnErrMsg := "Permission denied"
    newHandle := { pid := 0, exitCode := none } }

/-- C5: `get_output` removes and returns everything queued, joined in
arrival order, returning the empty string when nothing is queued; and
over any interleaving of reader pushes and drains, the drained output
plus what is still queued is exactly the pushed chunks in production
order — no loss, no reordering, even when drains happen mid-stream. -/
theorem get_output_drains_in_order :
    (∀ s : RunnerState,
        (get_output s).1 = String.join s.output_queue ∧
        (get_output s).2.output_queue = []) ∧
    (∀ s : RunnerState, s.output_queue = [] → (get_output s).1 = "") ∧
    (∀ evs : List BufEv,
        String.join (bufRun evs).drained ++ String.join (bufRun evs).queue =
          String.join (pushes evs)) := by
  refine ⟨?_, ?_, ?_⟩
  · intro s
    rw [get_output_eq]
    exact ⟨rfl, rfl⟩
  · intro s h
    rw [get_output_eq]
    simp [h, String.join]
  · intro evs
    have h := bufStep_foldl_invariant evs { queue := [], drained := [] }
    simpa [bufRun, String.join] using h

/-- Witness for C5: draining a fresh runner yields the empty string, and
the chunk sequence A, B, C with a drain mid-stream is recovered in order
with nothing left behind. -/
theorem get_output_drains_in_order_witness :
    (get_output (initRunner "python")).1 = "" ∧
    String.join (bufRun [BufEv.push "A", BufEv.drain, BufEv.push "B",
        BufEv.push "C", BufEv.drain]).drained ++
      String.join (bufRun [BufEv.push "A", BufEv.drain, BufEv.push "B",
        BufEv.push "C", BufEv.drain]).queue = String.join ["A", "B", "C"] := by
  constructor
  · exact get_output_drains_in_order.2.1 (initRunner "python") rfl
  · have h := get_output_drains_in_order.2.2 [BufEv.push "A", BufEv.drain,
      BufEv.push "B", BufEv.push "C", BufEv.drain]
    simpa [pushes] using h

/-- C6: `start` while a child is running returns failure and performs no
side effect: the state (including the first child handle) is unchanged,
no spawn happens, no reader thread is started. -/
theorem start_already_running_rejected (env : SpawnEnv) (s : RunnerState)
    (script_path : String) (cwd : Option String) (args : String)
    (h : is_running s = true) :
    start env s script_path cwd args =
      { state := s, ret := false, spawned := none, readerStarted := false } := by
  simp [start, h]

/-- Witness for C6: a second `start` against a runner holding a live
child is rejected without side effects. -/
theorem start_already_running_rejected_witness :
    start envOk sActive "job.py" none "" =
      { state := sActive, ret := false, spawned := none, readerStarted := false } :=
  start_already_running_rejected envOk sActive "job.py" none "" rfl

/-- C7: `start` with a nonexistent script, or with an OS that refuses to
spawn, returns failure, queues exactly one human-readable diagnostic line
retrievable by the next `get_output`, and changes no state: the handle,
the running flag, and hence `is_running`, are untouched. -/
theorem start_failure_queues_diagnostic (env : SpawnEnv) (s : RunnerState)
    (script_path : String) (cwd : Option String) (args : String)
    (hidle : is_running s = false)
    (hfail : env.scriptExists = false ∨ env.spawnOk = false) :
    ∃ msg : String,
      (start env s script_path cwd args).ret = false ∧
      (start env s script_path cwd args).state.output_queue =
        s.output_queue ++ [msg] ∧
      (get_output (start env s script_path cwd args).state).1 =
        String.join s.output_queue ++ msg ∧
      (start env s script_path cwd args).state.process = s.process ∧
      (start env s script_path cwd args).state.running = s.running ∧
      is_running (start env s script_path cwd args).state = false ∧
      (start env s script_path cwd args).spawned = none := by
  by_cases hex : env.scriptExists = false
  · refine ⟨"Error: Script not found: " ++ script_path ++ "\n", ?_⟩
    simp [start, hidle, hex, get_output_eq, join_append, join_singleton,
      is_running_ignores_queue]
  · have hex' : env.scriptExists = true := by
      cases hval : env.scriptExists
      · exact absurd hval hex
      · rfl
    have hok : env.spawnOk = false := by
      rcases hfail with h | h
      · exact absurd h hex
      · exact h
    refine ⟨"Error starting script: " ++ env.spawnErrMsg ++ "\n", ?_⟩
    simp [start, hidle, hex', hok, get_output_eq, join_append, join_singleton,
      is_running_ignores_queue]

/-- Witness for C7: starting a missing script on a fresh runner fails,
queues the diagnostic, and leaves the runner idle. -/
theorem start_failure_queues_diagnostic_witness :
    ∃ msg : String,
      (start envMissing (initRunner "python") "ghost.py" none "").ret = false ∧
      (start envMissing (initRunner "python") "ghost.py" none "").state.output_queue =
        (initRunner "python").output_queue ++ [msg] ∧
      (get_output (start envMissing (initRunner "python") "ghost.py" none "").state).1 =
        String.join (initRunner "python").output_queue ++ msg ∧
      (start envMissing (initRunner "python") "ghost.py" none "").state.process =
        (initRunner "python").process ∧
      (start envMissing (initRunner "python") "ghost.py" none "").state.running =
        (initRunner "python").running ∧
      is_running (start envMissing (initRunner "python") "ghost.py" none "").state = false ∧
      (start envMissing (initRunner "python") "ghost.py" none "").spawned = none :=
  start_failure_queues_diagnostic envMissing (initRunner "python") "ghost.py" none ""
    rfl (Or.inl rfl)

/-- C8: a successful `start` spawns with the stored executable, then the
script path, then the whitespace-tokenized arguments; the working
directory defaults to the parent of the script when `cwd` is not
supplied (or empty); stderr is merged into stdout; exactly one reader
thread is started; and the state becomes running while holding the new
handle. -/
theorem start_success_shape (env : SpawnEnv) (s : RunnerState)
    (script_path : String) (cwd : Option String) (args : String)
    (hidle : is_running s = false)
    (hex : env.scriptExists = true) (hok : env.spawnOk = true) :
    (start env s script_path cwd args).ret = true ∧
    (start env s script_path cwd args).spawned = some
      { cmd := [s.python_executable, script_path] ++ pySplit args
        workingDir :=
          match cwd with
          | some c => if c = "" then env.scriptParent else c
          | none => env.scriptParent
        mergeStderrIntoStdout := true } ∧
    (start env s script_path cwd args).readerStarted = true ∧
    (start env s script_path cwd args).state.running = true ∧
    (start env s script_path cwd args).state.reader_thread = true ∧
    (start env s script_path cwd args).state.process = some env.newHandle := by
  have hargs : (if args = "" then [] else pySplit args) = pySplit args := by
    by_cases h : args = ""
    · rw [h]
      rfl
    · simp [h]
  simp [start, hidle, hex, hok, hargs]

/-- Witness for C8: launching with argument string `--flag value` passes
the executable, the script, and the two separate tokens. -/
theorem start_success_shape_witness :
    (start envOk (initRunner "python") "job.py" none "--flag value").ret = true ∧
    (start envOk (initRunner "python") "job.py" none "--flag value").spawned = some
      { cmd := ["python", "job.py", "--flag", "value"]
        workingDir := "scripts"
        mergeStderrIntoStdout := true } ∧
    (start envOk (initRunner "python") "job.py" none "--flag value").readerStarted = true ∧
    (start envOk (initRunner "python") "job.py" none "--flag value").state.running = true := by
  have h := start_success_shape envOk (initRunner "python") "job.py" none
    "--flag value" rfl rfl rfl
  have hsplit : pySplit "--flag value" = ["--flag", "value"] := by decide
  refine ⟨h.1, ?_, h.2.2.1, h.2.2.2.1⟩
  rw [h.2.1, hsplit]
  rfl

/-- C10: when a child is already running, `start` rejects the call before
the script path is examined, so the output buffer is untouched — no
diagnostic is queued even if the path does not exist — and a subsequent
`get_output` returns exactly what it would have without the rejected
call. -/
theorem start_while_running_frame (env : SpawnEnv) (s : RunnerState)
    (script_path : String) (cwd : Option String) (args : String)
    (h : is_running s = true) :
    (start env s script_path cwd args).ret = false ∧
    (start env s script_path cwd args).state.output_queue = s.output_queue ∧
    (get_output (start env s script_path cwd args).state).1 = (get_output s).1 := by
  simp [start, h]

/-- Witness for C10: a rejected `start` whose script path does not exist
queues nothing. -/
theorem start_while_running_frame_witness :
    (start envMissing sActive "ghost.py" none "").ret = false ∧
    (start envMissing sActive "ghost.py" none "").state.output_queue =
      sActive.output_queue ∧
    (get_output (start envMissing sActive "ghost.py" none "").state).1 =
      (get_output sActive).1 :=
  start_while_running_frame envMissing sActive "ghost.py" none "" rfl

/-- C3, counterexample: under the schedule `racySched`, two concurrent
`start` calls on an idle runner both pass the `is_running` check and both
spawn — the check-and-spawn sequence is not serialized under the lock
(the lock depth at the spawn action of `startProg` is 0), the first
child handle is overwritten by the second (`process = some 2`), and the
at-most-one-child discipline is violated. -/
theorem start_check_spawn_race_counterexample :
    (runSched racySched twoStartsInit).spawnCount = 2 ∧
    ¬ (runSched racySched twoStartsInit).spawnCount ≤ 1 ∧
    (runSched racySched twoStartsInit).thread0.result = some true ∧
    (runSched racySched twoStartsInit).thread1.result = some true ∧
    (runSched racySched twoStartsInit).process = some 2 ∧
    lockDepthBefore startProg 5 = 0 ∧
    startProg.get? 5 = some CInstr.spawnChild := by
  refine ⟨by decide, by decide, by decide, by decide, by decide, by decide, by decide⟩

/-- C3, amended: `stop` runs its whole body under the lock and
`is_running` reads the handle under the lock, but `start` does not hold
the lock across its check-and-spawn sequence: the lock is released at
action 2, before the running check (action 3) and the spawn (action 5),
so the check-and-spawn sequence of `start` is not serialized with
concurrent `start` or `stop` calls. -/
theorem start_unlocked_stop_locked :
    startProg.get? 1 = some CInstr.readProc ∧
    startProg.get? 3 = some CInstr.branchIdle ∧
    startProg.get? 5 = some CInstr.spawnChild ∧
    (List.range 8).map (lockDepthBefore startProg) = [0, 1, 1, 0, 0, 0, 0, 0] ∧
    (List.range 6).map (lockDepthBefore stopProg) = [0, 1, 1, 1, 1, 1] := by
  refine ⟨rfl, rfl, rfl, by decide, by decide⟩

end Runner





